import Mathlib

/-!
# Verification of the TravelAgentAI package recommendation core

A shallow embedding of `src/package_recommender.py` (class `PackageRecommender`):
the baseline and enhanced compatibility scorers, the ranking engine
(`find_top_packages`), the online fallback path (`search_online_packages`,
`get_packages_from_openai`, `find_online_packages`), response parsing
(`parse_openai_response`, `extract_field`), validation
(`validate_package_data`), and sample-catalog generation
(`generate_sample_packages`).

Modelling conventions:
* Python numbers are embedded as `ℚ` (the scores only ever take values in a
  small grid of decimal fractions, where IEEE-754 double arithmetic and exact
  rational arithmetic agree on every comparison the code performs).
* Python `float(s)` / `int(s)` string conversions are embedded as
  `pyFloat : String → Option PyF` and `pyInt : String → Option Int`, where
  `none` models a raised `ValueError`.  `PyF` distinguishes finite values,
  the infinities and `nan`, because `float("nan")` succeeds and `nan`
  comparisons are all false — behaviour the validation code is sensitive to.
* The ambient wall clock (`datetime.now().month`) is passed in as an explicit
  `month : Nat` argument; the random generator (`random.choice` etc.) is
  passed in as an explicit stream `σ : Nat → Nat` of draws.
* The OpenAI client is embedded as `Option (Except Unit String)`:
  `none` = client unconfigured, `.error ()` = the API call raised,
  `.ok text` = the reply text.
* Functions that can raise are embedded with an `Option` result, `none`
  standing for an escaped exception.
-/

/-! ## Python string primitives -/

/-- `leadEq n h` : the char list `n` is an initial segment of `h`
(Python's pattern check at one position). -/
def leadEq : List Char → List Char → Bool
  | [], _ => true
  | _ :: _, [] => false
  | a :: as, b :: bs => a == b && leadEq as bs

/-- `hasSub n h` : `n` occurs contiguously inside `h`. -/
def hasSub : List Char → List Char → Bool
  | n, [] => n.isEmpty
  | n, c :: cs => leadEq n (c :: cs) || hasSub n cs

/-- Python's `needle in hay` on strings (substring containment; an empty
needle is contained in everything). -/
def pyIn (needle hay : String) : Bool := hasSub needle.toList hay.toList

/-- Lower-casing (ASCII; the data in this system is ASCII). -/
def pyLower (s : String) : String := String.mk (s.toList.map Char.toLower)

/-- Strip whitespace from both ends (Python `s.strip()`). -/
def trimChars (l : List Char) : List Char :=
  ((l.dropWhile Char.isWhitespace).reverse.dropWhile Char.isWhitespace).reverse

/-- Accumulator-based splitter for Python's `s.split()` with no argument:
split on whitespace runs, discarding empty pieces. -/
def pyWordsAux : List Char → List Char → List String
  | acc, [] => if acc.isEmpty then [] else [String.mk acc.reverse]
  | acc, c :: cs =>
    if c.isWhitespace then
      if acc.isEmpty then pyWordsAux [] cs
      else String.mk acc.reverse :: pyWordsAux [] cs
    else pyWordsAux (c :: acc) cs

/-- Python's `s.split()` with no argument. -/
def pyWords (s : String) : List String := pyWordsAux [] s.toList

/-- Split a char list at the first occurrence of `sep`, returning the part
before and the part after, or `none` if `sep` does not occur. -/
def breakOn (sep : List Char) : List Char → Option (List Char × List Char)
  | [] => none
  | c :: cs =>
    if leadEq sep (c :: cs) then some ([], (c :: cs).drop sep.length)
    else
      match breakOn sep cs with
      | none => none
      | some (pre, post) => some (c :: pre, post)

theorem breakOn_length (sep : List Char) (h : sep ≠ []) :
    ∀ l pre post, breakOn sep l = some (pre, post) → post.length < l.length := by
  intro l
  induction l with
  | nil => intro pre post hb; simp [breakOn] at hb
  | cons c cs ih =>
    intro pre post hb
    by_cases hl : leadEq sep (c :: cs) = true
    · simp [breakOn, hl] at hb
      obtain ⟨_, h2⟩ := hb
      subst h2
      have hs : 1 ≤ sep.length := by
        cases sep with
        | nil => exact absurd rfl h
        | cons a as => simp
      simp only [List.length_drop, List.length_cons]
      omega
    · simp only [breakOn, hl, if_false] at hb
      cases hbc : breakOn sep cs with
      | none => rw [hbc] at hb; simp at hb
      | some pp =>
        rw [hbc] at hb
        obtain ⟨pre2, post2⟩ := pp
        simp at hb
        obtain ⟨_, h2⟩ := hb
        subst h2
        have := ih pre2 post2 hbc
        simp only [List.length_cons]
        omega

/-- Fuel-based splitting loop (structural recursion, so that concrete
splits reduce in the kernel; by `breakOn_length` each step strictly
shrinks the remainder, so fuel `l.length + 1` is never exhausted for a
non-empty separator). -/
def pySplitAux (sep : List Char) : Nat → List Char → List (List Char)
  | 0, l => [l]
  | fuel + 1, l =>
    match breakOn sep l with
    | none => [l]
    | some (pre, post) => pre :: pySplitAux sep fuel post

/-- Python's `s.split(sep)` with a non-empty separator, on char lists.
(Python raises on an empty separator; this code only ever splits on the
non-empty literals `"Package "`, `"\n"`, `":"` and `","`.) -/
def pySplitChars (sep : List Char) (l : List Char) : List (List Char) :=
  if sep = [] then [l] else pySplitAux sep (l.length + 1) l

/-- Python's `s.split(sep)` on strings. -/
def pySplit (sep s : String) : List String :=
  (pySplitChars sep.toList s.toList).map (fun cs => String.mk cs)

/-! ## Kernel-reducible rational arithmetic

The Batteries `Rat` operations are `@[irreducible]`, so concrete score
computations could not be checked by `decide`.  These wrappers compute the
same values through `mkRat` / `Rat.divInt` (which do reduce) and are proved
equal to the standard operations, so theorem statements can still be read
through ordinary `+ * /`. -/

/-- Kernel-reducible rational addition. -/
def qadd (a b : ℚ) : ℚ := mkRat (a.num * b.den + b.num * a.den) (a.den * b.den)

/-- Kernel-reducible rational multiplication. -/
def qmul (a b : ℚ) : ℚ := mkRat (a.num * b.num) (a.den * b.den)

/-- Kernel-reducible rational inverse. -/
def qinv (a : ℚ) : ℚ := Rat.divInt a.den a.num

/-- Kernel-reducible rational division. -/
def qdiv (a b : ℚ) : ℚ := qmul a (qinv b)

/-- Kernel-reducible rational negation. -/
def qneg (a : ℚ) : ℚ := mkRat (-a.num) a.den

@[simp] theorem qadd_eq (a b : ℚ) : qadd a b = a + b := (Rat.add_def' a b).symm

@[simp] theorem qmul_eq (a b : ℚ) : qmul a b = a * b := by
  rw [qmul, Rat.mul_def, Rat.normalize_eq_mkRat]

@[simp] theorem qinv_eq (a : ℚ) : qinv a = a⁻¹ := by
  rw [qinv, ← Rat.inv_def]; rfl

@[simp] theorem qdiv_eq (a b : ℚ) : qdiv a b = a / b := by
  rw [qdiv, qmul_eq, qinv_eq, div_eq_mul_inv]

@[simp] theorem qneg_eq (a : ℚ) : qneg a = -a := by
  have : -a = -1 * a := by ring
  rw [qneg, this, ← qmul_eq, qmul]
  simp [mkRat]

/-! ## Python numeric-string conversions -/

/-- Value of a string of decimal digits. -/
def digitsVal (l : List Char) : Nat :=
  l.foldl (fun a c => 10 * a + (c.toNat - 48)) 0

/-- A non-empty all-digit block, or `none`. -/
def pyIntDigits (ds : List Char) : Option Nat :=
  if ds.isEmpty then none
  else if ds.all Char.isDigit then some (digitsVal ds) else none

/-- Model of Python `int(s)` on strings: optional surrounding whitespace,
optional sign, a non-empty run of decimal digits.  `none` models a raised
`ValueError`.  (Underscore separators and non-ASCII digits, which Python
also accepts, are not modelled; no data in this system uses them.) -/
def pyInt (s : String) : Option Int :=
  match trimChars s.toList with
  | '-' :: ds => (pyIntDigits ds).map (fun n => -(n : Int))
  | '+' :: ds => (pyIntDigits ds).map (fun n => (n : Int))
  | ds => (pyIntDigits ds).map (fun n => (n : Int))

/-- The value set of Python floats as far as this program observes them:
`nan`, the two infinities, and finite values (embedded as rationals). -/
inductive PyF where
  | nan : PyF
  | inf : PyF
  | ninf : PyF
  | fin : ℚ → PyF
deriving DecidableEq

/-- Python `v < c` for a float `v` against a finite constant `c`
(`nan` compares false against everything). -/
def PyF.ltQ : PyF → ℚ → Bool
  | .nan, _ => false
  | .inf, _ => false
  | .ninf, _ => true
  | .fin q, c => decide (q < c)

/-- Python `v > c` against a finite constant. -/
def PyF.gtQ : PyF → ℚ → Bool
  | .nan, _ => false
  | .inf, _ => true
  | .ninf, _ => false
  | .fin q, c => decide (c < q)

/-- Python `v >= c` against a finite constant. -/
def PyF.geQ : PyF → ℚ → Bool
  | .nan, _ => false
  | .inf, _ => true
  | .ninf, _ => false
  | .fin q, c => decide (c ≤ q)

/-- Python `<` between two floats (`nan` incomparable with everything). -/
def PyF.flt : PyF → PyF → Bool
  | .nan, _ => false
  | _, .nan => false
  | .inf, _ => false
  | .ninf, .ninf => false
  | .ninf, _ => true
  | .fin _, .inf => true
  | .fin _, .ninf => false
  | .fin q, .fin r => decide (q < r)

/-- Python `==` between two floats (`nan == nan` is false). -/
def PyF.feq : PyF → PyF → Bool
  | .nan, _ => false
  | _, .nan => false
  | .inf, .inf => true
  | .ninf, .ninf => true
  | .fin q, .fin r => q == r
  | _, _ => false

/-- `10 ^ e` for an integer exponent, kernel-reducibly. -/
def qpow10 : Int → ℚ
  | .ofNat n => ((10 ^ n : ℕ) : ℚ)
  | .negSucc n => qdiv 1 ((10 ^ (n + 1) : ℕ) : ℚ)

/-- Mantissa/exponent value `(ip . fp) * 10 ^ e`. -/
def pyFracVal (ip fp : List Char) (e : Int) : ℚ :=
  qmul (qadd (digitsVal ip : ℚ) (qdiv (digitsVal fp : ℚ) ((10 ^ fp.length : ℕ) : ℚ)))
    (qpow10 e)

/-- Signed exponent digits after `e`/`E`. -/
def pyExpDigits : List Char → Option Int
  | '+' :: ds => (pyIntDigits ds).map (fun n => (n : Int))
  | '-' :: ds => (pyIntDigits ds).map (fun n => -(n : Int))
  | ds => (pyIntDigits ds).map (fun n => (n : Int))

/-- Optional exponent suffix; empty input means exponent 0. -/
def pyExpPart : List Char → Option Int
  | [] => some 0
  | 'e' :: t => pyExpDigits t
  | 'E' :: t => pyExpDigits t
  | _ => none

/-- Unsigned decimal literal: `digits [. digits] [exp]` with at least one
digit in the mantissa. -/
def pyFloatMag (l : List Char) : Option ℚ :=
  let ip := l.takeWhile Char.isDigit
  let r1 := l.dropWhile Char.isDigit
  match r1 with
  | '.' :: t =>
    let fp := t.takeWhile Char.isDigit
    let r2 := t.dropWhile Char.isDigit
    if ip.isEmpty && fp.isEmpty then none
    else (pyExpPart r2).map (pyFracVal ip fp)
  | _ =>
    if ip.isEmpty then none
    else (pyExpPart r1).map (pyFracVal ip [])

/-- Model of Python `float(s)`: optional surrounding whitespace, optional
sign, then a decimal literal or (case-insensitively) `inf` / `infinity` /
`nan`.  `none` models a raised `ValueError`. -/
def pyFloat (s : String) : Option PyF :=
  let t := trimChars s.toList
  let sign : Bool := match t with | '-' :: _ => true | _ => false
  let u := match t with | '-' :: r => r | '+' :: r => r | r => r
  let lo := u.map Char.toLower
  if lo = "inf".toList ∨ lo = "infinity".toList then
    some (if sign then PyF.ninf else PyF.inf)
  else if lo = "nan".toList then some PyF.nan
  else (pyFloatMag u).map (fun q => PyF.fin (if sign then qneg q else q))

example : pyFloat "4.2" = some (PyF.fin (mkRat 21 5)) := by decide
example : pyFloat " 4.75 " = some (PyF.fin (mkRat 19 4)) := by decide
example : pyFloat "nan" = some PyF.nan := by decide
example : pyFloat "-inf" = some PyF.ninf := by decide
example : pyFloat "N/A" = none := by decide
example : pyFloat "1e2" = some (PyF.fin 100) := by decide
example : pyInt "300" = some 300 := by decide
example : pyInt " -12 " = some (-12) := by decide
example : pyInt "7.5" = none := by decide
example : pyIn "" "anything" = true := by decide
example : pyIn "par" "paris, france" = true := by decide
example : pyWords "new  york city" = ["new", "york", "city"] := by decide

/-! ## Data model

`Prefs` embeds the user-preference dict: each field is `Option String`
(`none` = key absent; the code reads every key through `dict.get` with a
default).  `Package` embeds a package record: every field is the raw string
the dicts and CSV rows carry.  The write-only presentation fields `source`
and `booking_links`, which no scoring or ranking decision ever reads, are
not modelled. -/

structure Prefs where
  destination : Option String
  budget : Option String
  duration : Option String
  travel_style : Option String
  group_size : Option String
  accommodation_type : Option String
deriving DecidableEq

structure Package where
  package_id : String
  package_name : String
  destination : String
  budget : String
  duration : String
  travel_style : String
  group_size : String
  accommodation_type : String
  activities : String
  price_range : String
  rating : String
  reviews_count : String
  includes : String
  best_time : String
deriving DecidableEq

/-- A package annotated by `find_top_packages` (`package.copy()` plus the
three score keys). -/
structure ScoredPackage where
  pkg : Package
  compatibility_score : ℚ
  raw_score : ℚ
  max_score : ℚ
deriving DecidableEq

/-- A package annotated by `find_online_packages` (enhanced-score keys). -/
structure EnhancedScoredPackage where
  pkg : Package
  enhanced_compatibility_score : ℚ
  enhanced_raw_score : ℚ
  enhanced_max_score : ℚ
deriving DecidableEq

/-! ## Baseline compatibility scorer (`calculate_compatibility_score`)

One definition per weighted factor, mirroring the six `if`-blocks of the
source in order. -/

/-- Destination matching (weight 3). -/
def destinationFactor (u : Prefs) (p : Package) : ℚ :=
  let ud := pyLower (u.destination.getD "")
  let pd := pyLower p.destination
  if pyIn ud pd then 3
  else if (pyWords ud).any (fun w => pyIn w pd) then 2
  else 0

/-- Budget matching (weight 3). -/
def budgetFactor (u : Prefs) (p : Package) : ℚ :=
  let ub := pyLower (u.budget.getD "")
  let pb := pyLower p.budget
  if ub = pb then 3
  else if (pyIn "budget" pb ∨ pyIn "cheap" pb ∨ pyIn "low" pb) ∧
          (pyIn "budget" ub ∨ pyIn "cheap" ub ∨ pyIn "low" ub ∨ pyIn "affordable" ub) then 2
  else if (pyIn "luxury" pb ∨ pyIn "premium" pb) ∧
          (pyIn "luxury" ub ∨ pyIn "high" ub ∨ pyIn "premium" ub ∨ pyIn "expensive" ub) then 2
  else if pyIn "moderate" pb ∧
          ¬(pyIn "budget" ub ∨ pyIn "luxury" ub ∨ pyIn "cheap" ub ∨ pyIn "expensive" ub) then 1
  else 0

/-- Duration matching (weight 2); an unparseable duration on either side
is caught by the `except ValueError: pass` and contributes 0. -/
def durationFactor (u : Prefs) (p : Package) : ℚ :=
  match pyInt (u.duration.getD "0") with
  | none => 0
  | some ud =>
    match pyInt p.duration with
    | none => 0
    | some pd =>
      if (ud - pd).natAbs = 0 then 2
      else if (ud - pd).natAbs ≤ 2 then 1
      else 0

/-- Travel-style matching (weight 3). -/
def styleFactor (u : Prefs) (p : Package) : ℚ :=
  let us := pyLower (u.travel_style.getD "")
  let ps := pyLower p.travel_style
  if us = ps then 3
  else if pyIn us (pyLower p.activities) then 2
  else 0

/-- Group-size matching (weight 2). -/
def groupFactor (u : Prefs) (p : Package) : ℚ :=
  let ug := pyLower (u.group_size.getD "")
  let pg := pyLower p.group_size
  if ug = pg then 2
  else if ((ug = "solo" ∨ ug = "1") ∧ (pg = "solo" ∨ pg = "1")) ∨
          ((ug = "couple" ∨ ug = "2") ∧ (pg = "couple" ∨ pg = "2")) ∨
          ((ug = "family" ∨ ug = "group") ∧ (pg = "family" ∨ pg = "group")) then 1
  else 0

/-- Accommodation-type matching (weight 2). -/
def accommodationFactor (u : Prefs) (p : Package) : ℚ :=
  let ua := pyLower (u.accommodation_type.getD "")
  let pa := pyLower p.accommodation_type
  if ua = pa then 2
  else if pyIn ua pa ∨ pyIn pa ua then 1
  else 0

/-- The accumulated raw score of the baseline scorer. -/
def baselineRaw (u : Prefs) (p : Package) : ℚ :=
  qadd (qadd (qadd (qadd (qadd (destinationFactor u p) (budgetFactor u p))
    (durationFactor u p)) (styleFactor u p)) (groupFactor u p)) (accommodationFactor u p)

/-- `calculate_compatibility_score(user_preferences, package)`:
returns `(percentage_score, score, max_score)` with the accumulated
`max_score = 3+3+2+3+2+2 = 15`. -/
def calculate_compatibility_score (u : Prefs) (p : Package) : ℚ × ℚ × ℚ :=
  let score := baselineRaw u p
  let maxScore : ℚ := 15
  (if 0 < maxScore then qmul (qdiv score maxScore) 100 else 0, score, maxScore)

/-! ## Enhanced compatibility scorer (`calculate_enhanced_compatibility_score`) -/

/-- Rating factor (weight 2) on the parsed float value. -/
def ratingPoints (v : PyF) : ℚ :=
  if v.geQ (mkRat 9 2) then 2
  else if v.geQ 4 then mkRat 3 2
  else if v.geQ (mkRat 7 2) then 1
  else 0

/-- Review-count factor (weight 1) on the parsed int value. -/
def reviewPoints (n : Int) : ℚ :=
  if 500 ≤ n then 1
  else if 200 ≤ n then mkRat 7 10
  else if 100 ≤ n then mkRat 1 2
  else 0

/-- Price-competitiveness factor (weight 2); the surrounding `try` in the
source can never fire (the body only does substring tests). -/
def pricePoints (u : Prefs) (p : Package) : ℚ :=
  let ub := pyLower (u.budget.getD "")
  let pp := pyLower p.price_range
  if pyIn "$" pp ∧ ub ≠ "" then
    if pyIn "budget" ub ∨ pyIn "cheap" ub ∨ pyIn "low" ub then
      if pyIn "300-600" pp ∨ pyIn "400-800" pp ∨ pyIn "500-900" pp then 2 else 0
    else if pyIn "luxury" ub ∨ pyIn "premium" ub ∨ pyIn "high" ub then
      if pyIn "2500-5000" pp ∨ pyIn "3000-6000" pp ∨ pyIn "4000-8000" pp ∨
         pyIn "5000-10000" pp then 2
      else 0
    else
      if pyIn "800-1500" pp ∨ pyIn "1000-1800" pp ∨ pyIn "1200-2000" pp then 2
      else if pyIn "1000-2000" pp ∨ pyIn "2000-5000" pp then mkRat 3 2
      else 0
  else 0

/-- The lower-case season name the enhanced scorer derives from the current
month (its own inline month-to-season mapping). -/
def seasonLower (month : Nat) : String :=
  if month = 12 ∨ month = 1 ∨ month = 2 then "winter"
  else if month = 3 ∨ month = 4 ∨ month = 5 then "spring"
  else if month = 6 ∨ month = 7 ∨ month = 8 then "summer"
  else "fall"

/-- Seasonal-relevance factor (weight 1).  The `elif` arm testing
`year-round` again is dead code in the source (kept verbatim here). -/
def seasonPoints (month : Nat) (p : Package) : ℚ :=
  let bt := pyLower p.best_time
  if bt = seasonLower month ∨ bt = "year-round" then 1
  else if bt = "year-round" ∨ bt = "all seasons" then mkRat 7 10
  else 0

/-- Inclusions-richness factor (weight 1.5). -/
def inclusionPoints (p : Package) : ℚ :=
  let inc := pyLower p.includes
  let cnt := if inc = "" then 0 else (pySplit "," inc).length
  if 7 ≤ cnt then mkRat 3 2
  else if 5 ≤ cnt then mkRat 6 5
  else if 3 ≤ cnt then mkRat 4 5
  else 0

/-- `calculate_enhanced_compatibility_score(user_preferences, package)`.
`none` models the uncaught `ValueError` raised by
`float(package.get('rating', 0))` / `int(package.get('reviews_count', 0))`
on an unparseable field (neither call is inside a `try`).  The accumulated
maximum is `15 + 2 + 1 + 2 + 1 + 1.5 = 22.5`. -/
def calculate_enhanced_compatibility_score (u : Prefs) (p : Package) (month : Nat) :
    Option (ℚ × ℚ × ℚ) :=
  let base := calculate_compatibility_score u p
  match pyFloat p.rating with
  | none => none
  | some rv =>
    match pyInt p.reviews_count with
    | none => none
    | some reviews =>
      let score := qadd (qadd (qadd (qadd (qadd base.2.1 (ratingPoints rv))
        (reviewPoints reviews)) (pricePoints u p)) (seasonPoints month p)) (inclusionPoints p)
      let maxScore := qadd (qadd (qadd (qadd (qadd base.2.2 2) 1) 2) 1) (mkRat 3 2)
      some (if 0 < maxScore then qmul (qdiv score maxScore) 100 else 0, score, maxScore)

/-! ## Validation of externally-synthesized records -/

/-- Python `s.title()`: first letter of each alphabetic run upper-cased,
the rest lower-cased. -/
def pyTitleAux : Bool → List Char → List Char
  | _, [] => []
  | prevAlpha, c :: cs =>
    if c.isAlpha then (if prevAlpha then c.toLower else c.toUpper) :: pyTitleAux true cs
    else c :: pyTitleAux false cs

/-- Python `s.title()`. -/
def pyTitle (s : String) : String := String.mk (pyTitleAux false s.toList)

/-- `get_current_season()`: capitalized season from the current month. -/
def get_current_season (month : Nat) : String :=
  if month = 12 ∨ month = 1 ∨ month = 2 then "Winter"
  else if month = 3 ∨ month = 4 ∨ month = 5 then "Spring"
  else if month = 6 ∨ month = 7 ∨ month = 8 then "Summer"
  else "Fall"

/-- `get_activity_for_style(travel_style)`. -/
def get_activity_for_style (travel_style : String) : String :=
  let s := pyLower travel_style
  if s = "cultural" then "Museums, Historical sites, Art galleries, Cultural tours"
  else if s = "adventure" then "Hiking, Rock climbing, Adventure sports, Nature exploration"
  else if s = "relaxation" then "Spa treatments, Beach activities, Yoga, Meditation"
  else if s = "business" then "Business meetings, Networking events, City exploration, Fine dining"
  else if s = "romantic" then "Romantic dinners, Couples spa, Sunset tours, Wine tasting"
  else if s = "family" then "Family activities, Theme parks, Kid-friendly tours, Interactive museums"
  else "City tours, Local experiences, Sightseeing"

/-- `get_price_for_budget(budget)`. -/
def get_price_for_budget (budget : String) : String :=
  let b := pyLower budget
  if b = "budget" then "$400-800"
  else if b = "moderate" then "$1000-1800"
  else if b = "luxury" then "$3000-6000"
  else "$1000-1800"

/-- The rating branch of `validate_package_data`: keep the original string
only when `float` succeeds and the value fails neither `rating < 3.5` nor
`rating > 5.0` (both comparisons are false for `nan`). -/
def validated_rating (s : String) : String :=
  match pyFloat s with
  | none => "4.2"
  | some v => if v.ltQ (mkRat 7 2) ∨ v.gtQ 5 then "4.2" else s

/-- The review-count branch of `validate_package_data`. -/
def validated_reviews (s : String) : String :=
  match pyInt s with
  | none => "300"
  | some n => if n < 100 ∨ 1000 < n then "300" else s

/-- `validate_package_data(package, user_preferences)` (the
`user_preferences` parameter is unused in the source body; kept for the
signature).  The outer `try` can never fire: every field access is on a key
the caller always populates. -/
def validate_package_data (p : Package) (_uprefs : Prefs) (month : Nat) : Package :=
  let p1 := { p with rating := validated_rating p.rating,
                     reviews_count := validated_reviews p.reviews_count }
  let p2 := if p1.package_name = "Not specified" then
      { p1 with package_name := pyTitle p1.travel_style ++ " Experience in " ++ p1.destination }
    else p1
  let p3 := if p2.activities = "Not specified" then
      { p2 with activities := get_activity_for_style p2.travel_style }
    else p2
  let p4 := if p3.price_range = "Not specified" then
      { p3 with price_range := get_price_for_budget p3.budget }
    else p3
  let p5 := if p4.includes = "Not specified" then
      { p4 with includes := "Accommodation, Transportation, " ++ p4.travel_style ++
          " activities, Travel insurance" }
    else p4
  if p5.best_time = "Not specified" then { p5 with best_time := get_current_season month }
  else p5

/-! ## Parsing the generation collaborator's reply -/

/-- `extract_field(text, field_name)`: first line containing the field name
(case-insensitively) and a colon; value is everything after the first
colon, stripped, with `[` and `]` removed. -/
def extract_field (text fieldName : String) : String :=
  match (pySplit "\n" text).find?
      (fun line => pyIn (pyLower fieldName) (pyLower line) && pyIn ":" line) with
  | none => "Not specified"
  | some line =>
    let raw := String.intercalate ":" (pySplit ":" line).tail
    let v1 := trimChars raw.toList
    let v2 := trimChars (v1.filter (fun c => c != '[' && c != ']'))
    if v2.isEmpty then "Not specified" else String.mk v2

/-- `f"{n:03d}"` for the small indices used in package ids. -/
def pad3 (n : Nat) : String :=
  if n < 10 then "00" ++ toString n
  else if n < 100 then "0" ++ toString n
  else toString n

/-- `parse_openai_response(response_text, user_preferences)`: split the
reply on `"Package "`, keep at most 3 blocks, build each record with the
six preference fields copied from the user's Preference Set (with the fixed
defaults of the source for absent keys) and the remaining fields extracted
from the block text, then validate.  The body's `try` cannot fire (every
operation inside is total), so the `except` arm returning `[]` is dead;
the `source` field set at the end is presentation-only and not modelled. -/
def parse_openai_response (text : String) (u : Prefs) (month : Nat) : List Package :=
  let blocks := (pySplit "Package " text).tail
  (blocks.take 3).enum.map (fun ib =>
    let pkg : Package := {
      package_id := "ONLINE" ++ pad3 (ib.1 + 1),
      package_name := extract_field ib.2 "package_name",
      destination := u.destination.getD "Unknown Destination",
      budget := u.budget.getD "moderate",
      duration := u.duration.getD "7",
      travel_style := u.travel_style.getD "relaxation",
      group_size := u.group_size.getD "2",
      accommodation_type := u.accommodation_type.getD "hotel",
      activities := extract_field ib.2 "activities",
      price_range := extract_field ib.2 "price_range",
      rating := extract_field ib.2 "rating",
      reviews_count := extract_field ib.2 "reviews_count",
      includes := extract_field ib.2 "includes",
      best_time := extract_field ib.2 "best_time" }
    validate_package_data pkg u month)

/-! ## Online fallback orchestration -/

/-- `get_packages_from_openai(user_preferences)`: the API call result is
the `api` argument; an API error is re-raised (`raise e`). -/
def get_packages_from_openai (api : Except Unit String) (u : Prefs) (month : Nat) :
    Except Unit (List Package) :=
  match api with
  | .error e => .error e
  | .ok text => .ok (parse_openai_response text u month)

/-- `search_online_packages(user_preferences)`: returns `[]` when the
client is unconfigured, and catches any exception from the API path,
also returning `[]`. -/
def search_online_packages (api : Option (Except Unit String)) (u : Prefs) (month : Nat) :
    List Package :=
  match api with
  | none => []
  | some r =>
    match get_packages_from_openai r u month with
    | .error _ => []
    | .ok pkgs => pkgs

/-! ## Stable descending sort (Python `list.sort(key=..., reverse=True)`)

Python's sort is stable; with `reverse=True` it orders by strictly-greater
key, keeping equal-key elements in input order.  `List.insertionSort`
with the relation "key of the earlier element is not strictly less" is
exactly that ordering (agreement with CPython's Timsort holds whenever the
key comparison is a strict weak order, which the ranking theorems assume
via parseable, finite ratings). -/

def pySortDesc {α : Type} (klt : α → α → Bool) (l : List α) : List α :=
  List.insertionSort (fun a b => klt a b = false) l

/-- Python tuple `<` on a `(percentage, rating)` key. -/
def rankKeyLt (a b : ℚ × PyF) : Bool :=
  if a.1 = b.1 then PyF.flt a.2 b.2 else decide (a.1 < b.1)

/-- The sort key of `find_top_packages`:
`(x['compatibility_score'], float(x['rating']))`.  The `getD` default is
only a placeholder: ranking guards that the rating parses. -/
def rankKey (sp : ScoredPackage) : ℚ × PyF :=
  (sp.compatibility_score, (pyFloat sp.pkg.rating).getD PyF.nan)

/-- Python tuple `<` on a `(percentage, rating, reviews)` key. -/
def enhKeyLt (a b : ℚ × PyF × Int) : Bool :=
  if a.1 = b.1 then
    if PyF.feq a.2.1 b.2.1 then decide (a.2.2 < b.2.2) else PyF.flt a.2.1 b.2.1
  else decide (a.1 < b.1)

/-- The sort key of `find_online_packages`. -/
def enhKey (sp : EnhancedScoredPackage) : ℚ × PyF × Int :=
  (sp.enhanced_compatibility_score, (pyFloat sp.pkg.rating).getD PyF.nan,
    (pyInt sp.pkg.reviews_count).getD 0)

/-- `find_online_packages(user_preferences, top_n=3)`: search online, score
each hit with the enhanced scorer (`none` = an uncaught scoring exception —
there is no `try` around this loop), sort descending by the three-part key
and truncate.  When the enhanced scorer succeeds the rating and review
strings parse, so the `float`/`int` calls in the sort key cannot raise. -/
def find_online_packages (api : Option (Except Unit String)) (u : Prefs) (month : Nat)
    (top_n : Nat) : Option (List EnhancedScoredPackage) :=
  let online := search_online_packages api u month
  if online.isEmpty then some []
  else
    match online.mapM (fun p =>
        (calculate_enhanced_compatibility_score u p month).map
          (fun t => EnhancedScoredPackage.mk p t.1 t.2.1 t.2.2)) with
    | none => none
    | some scored =>
      some ((pySortDesc (fun a b => enhKeyLt (enhKey a) (enhKey b)) scored).take top_n)

/-! ## Sample catalog generation -/

/-- `random.choice(xs)` driven by the abstract draw stream. -/
def pyChoice (σ : Nat → Nat) (k : Nat) (xs : List String) : String :=
  xs.getD (σ k % xs.length) ""

/-- `generate_price_range(budget_type)`: the dict literal evaluates one
`random.choice` per tiered key before the lookup. -/
def generate_price_range (σ : Nat → Nat) (k : Nat) (budget_type : String) : String :=
  let b := pyChoice σ k ["$300-600", "$400-800", "$500-900"]
  let m := pyChoice σ (k + 1) ["$800-1500", "$1000-1800", "$1200-2000"]
  let l := pyChoice σ (k + 2) ["$2500-5000", "$3000-6000", "$4000-8000"]
  if budget_type = "budget" then b
  else if budget_type = "moderate" then m
  else if budget_type = "luxury" then l
  else if budget_type = "$500-1000" then "$500-1000"
  else if budget_type = "$1000-2000" then "$1000-2000"
  else if budget_type = "$2000-5000" then "$2000-5000"
  else if budget_type = "$5000+" then "$5000-10000"
  else "$800-1500"

/-- A `random.sample`-style selection: `cnt` distinct elements starting at a
drawn offset (one of the subsets `random.sample` can return; the draw stream
abstracts the RNG, so any fixed selection rule is a faithful model). -/
def sampleCyc (xs : List String) (start cnt : Nat) : List String :=
  (List.range cnt).map (fun i => xs.getD ((start + i) % xs.length) "")

/-- `generate_package_includes()`: base items plus 2–5 sampled options. -/
def generate_package_includes (σ : Nat → Nat) (k : Nat) : String :=
  let optional := ["Breakfast", "All meals", "Tour guide", "Airport transfers",
    "Travel insurance", "WiFi", "City tours", "Welcome dinner",
    "24/7 support", "Local SIM card", "Travel kit"]
  let cnt := 2 + σ k % 4
  let start := σ (k + 1) % 11
  String.intercalate ", " (["Accommodation", "Transportation"] ++ sampleCyc optional start cnt)

/-- `round(random.uniform(3.5, 5.0), 1)` printed as a rating string: the
possible outcomes are exactly 3.5, 3.6, …, 5.0. -/
def ratingString (σ : Nat → Nat) (k : Nat) : String :=
  let n := 35 + σ k % 16
  toString (n / 10) ++ "." ++ toString (n % 10)

/-- One sample package (`generate_sample_packages` loop body, index `i`). -/
def mkSamplePackage (σ : Nat → Nat) (i : Nat) : Package :=
  let destinations := ["Paris, France", "Tokyo, Japan", "New York, USA", "London, UK",
    "Rome, Italy", "Barcelona, Spain", "Amsterdam, Netherlands", "Sydney, Australia",
    "Dubai, UAE", "Bangkok, Thailand", "Istanbul, Turkey", "Prague, Czech Republic",
    "Vienna, Austria", "Berlin, Germany", "Copenhagen, Denmark", "Stockholm, Sweden",
    "Zurich, Switzerland", "Singapore", "Hong Kong", "Mumbai, India"]
  let budgets := ["budget", "moderate", "luxury", "$500-1000", "$1000-2000",
    "$2000-5000", "$5000+"]
  let durations := ["3", "5", "7", "10", "14", "21", "28"]
  let travel_styles := ["adventure", "relaxation", "cultural", "business", "romantic", "family"]
  let group_sizes := ["solo", "couple", "family", "group", "2", "4", "6", "8"]
  let accommodation_types := ["hotel", "hostel", "airbnb", "resort", "camping", "boutique"]
  let package_names := ["City Explorer", "Cultural Immersion", "Adventure Seeker",
    "Luxury Escape", "Budget Traveler", "Business Elite", "Romantic Getaway", "Family Fun",
    "Backpacker Special", "Wellness Retreat", "Historic Journey", "Modern Metropolis",
    "Nature Explorer", "Culinary Tour", "Art & Culture", "Shopping Spree",
    "Beach Paradise", "Mountain Adventure", "Desert Safari", "Urban Discovery"]
  let activities := ["City tours, Museums, Local cuisine",
    "Hiking, Adventure sports, Nature walks",
    "Spa treatments, Yoga, Meditation", "Shopping, Nightlife, Entertainment",
    "Cultural sites, Historical tours, Art galleries",
    "Beach activities, Water sports, Relaxation",
    "Business meetings, Networking events, City exploration",
    "Family activities, Theme parks, Kid-friendly tours",
    "Budget tours, Free walking tours, Local experiences",
    "Photography tours, Scenic views, Local markets"]
  let k := 20 * i
  { package_id := "PKG" ++ pad3 (i + 1),
    package_name := pyChoice σ k package_names ++ " " ++ toString (i + 1),
    destination := pyChoice σ (k + 1) destinations,
    budget := pyChoice σ (k + 2) budgets,
    duration := pyChoice σ (k + 3) durations,
    travel_style := pyChoice σ (k + 4) travel_styles,
    group_size := pyChoice σ (k + 5) group_sizes,
    accommodation_type := pyChoice σ (k + 6) accommodation_types,
    activities := pyChoice σ (k + 7) activities,
    price_range := generate_price_range σ (k + 9) (pyChoice σ (k + 8) budgets),
    rating := ratingString σ (k + 12),
    reviews_count := toString (50 + σ (k + 13) % 951),
    includes := generate_package_includes σ (k + 14),
    best_time := pyChoice σ (k + 16) ["Spring", "Summer", "Fall", "Winter", "Year-round"] }

/-- `generate_sample_packages(num_packages=20)`. -/
def generate_sample_packages (σ : Nat → Nat) (num_packages : Nat) : List Package :=
  (List.range num_packages).map (mkSamplePackage σ)

/-! ## Ranking engine (`find_top_packages`) -/

/-- The score-filter loop of `find_top_packages`: score every package with
the baseline scorer and keep (an annotated copy of) those with
`compatibility_score > 5`. -/
def scoredSurvivors (u : Prefs) (pkgs : List Package) : List ScoredPackage :=
  pkgs.filterMap (fun p =>
    let t := calculate_compatibility_score u p
    if 5 < t.1 then some (ScoredPackage.mk p t.1 t.2.1 t.2.2) else none)

/-- The scoring/filter/sort/truncate core of `find_top_packages` for an
explicit package list.  `none` models the uncaught `ValueError` from
`float(x['rating'])` in the sort key (Python computes the key of every
surviving element before comparing, even for short lists). -/
def find_top_core (u : Prefs) (pkgs : List Package) (top_n : Nat) :
    Option (List ScoredPackage) :=
  let scored := scoredSurvivors u pkgs
  if scored.all (fun sp => (pyFloat sp.pkg.rating).isSome) then
    some ((pySortDesc (fun a b => rankKeyLt (rankKey a) (rankKey b)) scored).take top_n)
  else none

/-- `find_top_packages(user_preferences, packages=None, top_n=3)` with the
instance state `self.packages` made explicit: returns the result together
with the state after the call.  When called without a package list and with
an empty store, a fresh sample catalog is generated and installed (the CSV
write is an unmodelled external effect). -/
def find_top_packages (selfPackages : List Package) (u : Prefs)
    (packages : Option (List Package)) (σ : Nat → Nat) (top_n : Nat) :
    Option (List ScoredPackage) × List Package :=
  match packages with
  | some ps => (find_top_core u ps top_n, selfPackages)
  | none =>
    if selfPackages.isEmpty then
      let gen := generate_sample_packages σ 20
      (find_top_core u gen top_n, gen)
    else (find_top_core u selfPackages top_n, selfPackages)

/-! ## Spec-side budget-bucket predicates (for the budget-factor claim) -/

/-- The spec's budget-like words on the package side. -/
def pkgBudgetLike (pb : String) : Bool :=
  pyIn "budget" pb || pyIn "cheap" pb || pyIn "low" pb

/-- The spec's budget-like words on the user side. -/
def userBudgetLike (ub : String) : Bool :=
  pyIn "budget" ub || pyIn "cheap" ub || pyIn "low" ub || pyIn "affordable" ub

/-- The spec's luxury-like words on the package side. -/
def pkgLuxuryLike (pb : String) : Bool :=
  pyIn "luxury" pb || pyIn "premium" pb

/-- The spec's luxury-like words on the user side. -/
def userLuxuryLike (ub : String) : Bool :=
  pyIn "luxury" ub || pyIn "high" ub || pyIn "premium" ub || pyIn "expensive" ub

/-- The keyword list the 1-point branch actually excludes — only these four
words, not the full budget/luxury vocabularies. -/
def moderateExclusionWords : List String := ["budget", "luxury", "cheap", "expensive"]

/-- Modelled from the spec (as amended by the C7 counterexample): the
budget-factor rule written independently, with containment-based bucket
tests, a containment test for "moderate", and the four-word exclusion
list. -/
def budgetFactorSpec (ub pb : String) : ℚ :=
  if ub = pb then 3
  else if (pkgBudgetLike pb && userBudgetLike ub)
       || (pkgLuxuryLike pb && userLuxuryLike ub) then 2
  else if pyIn "moderate" pb && !(moderateExclusionWords.any (fun w => pyIn w ub)) then 1
  else 0

/-! ## Concrete fixtures (the spec's §8 example data) -/

/-- The preference set of the spec's worked example. -/
def parisPrefs : Prefs :=
  ⟨some "Paris", some "luxury", some "7", some "cultural", some "couple", some "hotel"⟩

/-- A package matching `parisPrefs` on every factor, rating 4.0. -/
def parisCulturalPkg : Package :=
  ⟨"PKG001", "Lux 1", "Paris, France", "luxury", "7", "cultural", "couple", "hotel",
   "Cultural sites, Historical tours, Art galleries", "$3000-6000", "4.0", "450",
   "Accommodation, Transportation, Breakfast", "Spring"⟩

/-- The same package with only the rating raised to 4.8. -/
def parisCulturalPkgHi : Package := { parisCulturalPkg with rating := "4.8" }

/-- The same package with an unparseable rating string. -/
def unparseableRatingPkg : Package := { parisCulturalPkg with rating := "N/A" }

/-- The same package with rating `"nan"` (which Python's `float` accepts). -/
def nanRatingPkg : Package := { parisCulturalPkg with rating := "nan" }

/-- A package whose budget is exactly `"moderate"`. -/
def moderateBudgetPkg : Package := { parisCulturalPkg with budget := "moderate" }

/-- A package whose budget merely contains the word `"moderate"`. -/
def moderatelyPricedPkg : Package := { parisCulturalPkg with budget := "moderately priced" }

/-- Preferences whose budget is `"mid"` (no budget/luxury keyword). -/
def midBudgetPrefs : Prefs := { parisPrefs with budget := some "mid" }

/-- Preferences whose budget is `"high"` (a luxury-bucket keyword). -/
def highBudgetPrefs : Prefs := { parisPrefs with budget := some "high" }

/-- The same package with an unparseable duration string. -/
def unparseableDurationPkg : Package := { parisCulturalPkg with duration := "soon" }

/-- The record `parse_openai_response` produces from the one-field reply
`"Package 1:\nrating: 4.7\n"` under `parisPrefs` in June. -/
def parsedWitnessPkg : Package :=
  ⟨"ONLINE001", "Cultural Experience in Paris", "Paris", "luxury", "7", "cultural", "couple",
   "hotel", "Museums, Historical sites, Art galleries, Cultural tours", "$3000-6000", "4.7",
   "300", "Accommodation, Transportation, cultural activities, Travel insurance", "Summer"⟩

/-! ## Generic facts about the stable descending sort -/

theorem mkRat_eq_div (n : ℤ) (d : ℕ) : (mkRat n d : ℚ) = (n : ℚ) / (d : ℚ) := by
  rw [Rat.mkRat_eq_divInt, Rat.divInt_eq_div]
  norm_num

section SortLemmas

variable {α : Type} (r : α → α → Prop) [DecidableRel r]

/-- Inserting `x` never disturbs, and prepends `x` to, the sublist of
elements selected by a predicate that forces `x` to sort no later
(the stability kernel). -/
theorem filter_orderedInsert_of (f : α → Bool) (x : α)
    (hx : ∀ y, f x = true → f y = true → r x y) :
    ∀ l : List α, (List.orderedInsert r x l).filter f =
      if f x then x :: l.filter f else l.filter f := by
  intro l
  induction l with
  | nil => by_cases hfx : f x <;> simp [List.orderedInsert, hfx]
  | cons y ys ih =>
    by_cases hr : r x y
    · rw [List.orderedInsert, if_pos hr]
      by_cases hfx : f x <;> by_cases hfy : f y <;>
        simp [List.filter_cons, hfx, hfy]
    · rw [List.orderedInsert, if_neg hr]
      by_cases hfx : f x = true
      · have hfy : f y = false := by
          by_contra hy
          exact hr (hx y hfx (by simpa using hy))
      
        simp [List.filter_cons, hfy, ih, hfx]
      · have hfx0 : f x = false := by simpa using hfx
        by_cases hfy : f y <;> simp [List.filter_cons, hfy, ih, hfx0]

/-- Stability of the insertion sort: a predicate-selected sublist whose
elements all relate pairwise is left in input order. -/
theorem filter_insertionSort_of (f : α → Bool)
    (hf : ∀ a b, f a = true → f b = true → r a b) :
    ∀ l : List α, (List.insertionSort r l).filter f = l.filter f := by
  intro l
  induction l with
  | nil => rfl
  | cons x xs ih =>
    rw [List.insertionSort, filter_orderedInsert_of r f x (fun y => hf x y)]
    by_cases hfx : f x <;> simp [List.filter_cons, hfx, ih]

/-- Sortedness of `orderedInsert`, relative to a class `P` of elements on
which `r` is total and transitive. -/
theorem pairwise_orderedInsert_of (P : α → Prop)
    (htot : ∀ a b, P a → P b → ¬r a b → r b a)
    (htrans : ∀ a b c, P a → P b → P c → r a b → r b c → r a c)
    (x : α) (hx : P x) :
    ∀ l : List α, (∀ y ∈ l, P y) → l.Pairwise r →
      (List.orderedInsert r x l).Pairwise r := by
  intro l
  induction l with
  | nil => intro _ _; simp [List.orderedInsert]
  | cons y ys ih =>
    intro hP hp
    rw [List.pairwise_cons] at hp
    obtain ⟨hy, hys⟩ := hp
    by_cases hr : r x y
    · rw [List.orderedInsert, if_pos hr]
      refine List.Pairwise.cons ?_ (List.Pairwise.cons hy hys)
      intro z hz
      rcases List.mem_cons.mp hz with rfl | hz
      · exact hr
      · exact htrans x y z hx (hP y (by simp)) (hP z (by simp [hz])) hr (hy z hz)
    · rw [List.orderedInsert, if_neg hr]
      refine List.Pairwise.cons ?_ (ih (fun z hz => hP z (by simp [hz])) hys)
      intro z hz
      rcases (List.mem_orderedInsert r).mp hz with hzx | hz
      · rw [hzx]; exact htot x y hx (hP y (by simp)) hr
      · exact hy z hz

/-- Sortedness of the insertion sort, relative to a class `P`. -/
theorem pairwise_insertionSort_of (P : α → Prop)
    (htot : ∀ a b, P a → P b → ¬r a b → r b a)
    (htrans : ∀ a b c, P a → P b → P c → r a b → r b c → r a c) :
    ∀ l : List α, (∀ x ∈ l, P x) → (List.insertionSort r l).Pairwise r := by
  intro l
  induction l with
  | nil => intro _; simp
  | cons x xs ih =>
    intro hP
    rw [List.insertionSort]
    refine pairwise_orderedInsert_of r P htot htrans x (hP x (by simp)) _ ?_ ?_
    · intro y hy
      exact hP y (by simp [(List.mem_insertionSort r).mp hy])
    · exact ih (fun z hz => hP z (by simp [hz]))

end SortLemmas

/-- The ranking key order is irreflexive (no element sorts strictly before
itself, whatever the rating value — including `nan`). -/
theorem rankKeyLt_self (k : ℚ × PyF) : rankKeyLt k k = false := by
  unfold rankKeyLt
  rw [if_pos rfl]
  cases k.2 <;> simp [PyF.flt]

/-- On finite ratings the ranking key order is the strict lexicographic
order. -/
theorem rankKeyLt_fin_eq (p1 p2 q1 q2 : ℚ) :
    rankKeyLt (p1, PyF.fin q1) (p2, PyF.fin q2)
      = decide (p1 < p2 ∨ (p1 = p2 ∧ q1 < q2)) := by
  unfold rankKeyLt
  by_cases h : p1 = p2
  · subst h; simp [PyF.flt]
  · simp [h]

/-! ## Bounds on the scoring factors -/

theorem destinationFactor_bounds (u : Prefs) (p : Package) :
    0 ≤ destinationFactor u p ∧ destinationFactor u p ≤ 3 := by
  unfold destinationFactor
  dsimp only
  split_ifs <;> norm_num

theorem budgetFactor_bounds (u : Prefs) (p : Package) :
    0 ≤ budgetFactor u p ∧ budgetFactor u p ≤ 3 := by
  unfold budgetFactor
  dsimp only
  split_ifs <;> norm_num

theorem durationFactor_bounds (u : Prefs) (p : Package) :
    0 ≤ durationFactor u p ∧ durationFactor u p ≤ 2 := by
  unfold durationFactor
  cases pyInt (u.duration.getD "0") with
  | none => norm_num
  | some ud =>
    cases pyInt p.duration with
    | none => norm_num
    | some pd =>
      dsimp only
      split_ifs <;> norm_num

theorem styleFactor_bounds (u : Prefs) (p : Package) :
    0 ≤ styleFactor u p ∧ styleFactor u p ≤ 3 := by
  unfold styleFactor
  dsimp only
  split_ifs <;> norm_num

theorem groupFactor_bounds (u : Prefs) (p : Package) :
    0 ≤ groupFactor u p ∧ groupFactor u p ≤ 2 := by
  unfold groupFactor
  dsimp only
  split_ifs <;> norm_num

theorem accommodationFactor_bounds (u : Prefs) (p : Package) :
    0 ≤ accommodationFactor u p ∧ accommodationFactor u p ≤ 2 := by
  unfold accommodationFactor
  dsimp only
  split_ifs <;> norm_num

theorem baselineRaw_eq (u : Prefs) (p : Package) :
    baselineRaw u p = destinationFactor u p + budgetFactor u p + durationFactor u p
      + styleFactor u p + groupFactor u p + accommodationFactor u p := by
  unfold baselineRaw
  simp

theorem baselineRaw_bounds (u : Prefs) (p : Package) :
    0 ≤ baselineRaw u p ∧ baselineRaw u p ≤ 15 := by
  rw [baselineRaw_eq]
  have h1 := destinationFactor_bounds u p
  have h2 := budgetFactor_bounds u p
  have h3 := durationFactor_bounds u p
  have h4 := styleFactor_bounds u p
  have h5 := groupFactor_bounds u p
  have h6 := accommodationFactor_bounds u p
  constructor <;> linarith [h1.1, h1.2, h2.1, h2.2, h3.1, h3.2, h4.1, h4.2, h5.1, h5.2, h6.1, h6.2]

/-- The baseline scorer, written with ordinary field operations. -/
theorem calculate_compatibility_score_def (u : Prefs) (p : Package) :
    calculate_compatibility_score u p
      = (baselineRaw u p / 15 * 100, baselineRaw u p, 15) := by
  unfold calculate_compatibility_score
  norm_num

theorem ratingPoints_bounds (v : PyF) : 0 ≤ ratingPoints v ∧ ratingPoints v ≤ 2 := by
  unfold ratingPoints
  split_ifs <;> norm_num [mkRat_eq_div]

theorem reviewPoints_bounds (n : Int) : 0 ≤ reviewPoints n ∧ reviewPoints n ≤ 1 := by
  unfold reviewPoints
  split_ifs <;> norm_num [mkRat_eq_div]

theorem pricePoints_bounds (u : Prefs) (p : Package) :
    0 ≤ pricePoints u p ∧ pricePoints u p ≤ 2 := by
  unfold pricePoints
  dsimp only
  split_ifs <;> norm_num [mkRat_eq_div]

theorem seasonPoints_bounds (month : Nat) (p : Package) :
    0 ≤ seasonPoints month p ∧ seasonPoints month p ≤ 1 := by
  unfold seasonPoints
  dsimp only
  split_ifs <;> norm_num [mkRat_eq_div]

theorem inclusionPoints_bounds (p : Package) :
    0 ≤ inclusionPoints p ∧ inclusionPoints p ≤ 3 / 2 := by
  unfold inclusionPoints
  dsimp only
  split_ifs <;> norm_num [mkRat_eq_div]

/-- The enhanced scorer on parseable rating/review fields, written with
ordinary field operations. -/
theorem calculate_enhanced_compatibility_score_eq (u : Prefs) (p : Package) (month : Nat)
    (rv : PyF) (n : Int) (hr : pyFloat p.rating = some rv)
    (hn : pyInt p.reviews_count = some n) :
    calculate_enhanced_compatibility_score u p month =
      some ((baselineRaw u p + ratingPoints rv + reviewPoints n + pricePoints u p
              + seasonPoints month p + inclusionPoints p) / (45 / 2) * 100,
            baselineRaw u p + ratingPoints rv + reviewPoints n + pricePoints u p
              + seasonPoints month p + inclusionPoints p,
            45 / 2) := by
  unfold calculate_enhanced_compatibility_score
  rw [hr, hn]
  dsimp only
  rw [if_pos (by unfold calculate_compatibility_score; norm_num [mkRat_eq_div])]
  unfold calculate_compatibility_score
  norm_num [mkRat_eq_div]

/-- `none` (a raised `ValueError`) happens exactly on an unparseable rating
or review count. -/
theorem calculate_enhanced_compatibility_score_none_iff (u : Prefs) (p : Package)
    (month : Nat) :
    calculate_enhanced_compatibility_score u p month = none ↔
      (pyFloat p.rating = none ∨ pyInt p.reviews_count = none) := by
  unfold calculate_enhanced_compatibility_score
  cases pyFloat p.rating with
  | none => simp
  | some rv =>
    cases pyInt p.reviews_count with
    | none => simp
    | some n => simp

/-! ## Characterizations of the ranking engine -/

theorem mem_scoredSurvivors (u : Prefs) (pkgs : List Package) (sp : ScoredPackage) :
    sp ∈ scoredSurvivors u pkgs ↔
      ∃ p ∈ pkgs, 5 < (calculate_compatibility_score u p).1 ∧
        sp = ScoredPackage.mk p (calculate_compatibility_score u p).1
              (calculate_compatibility_score u p).2.1
              (calculate_compatibility_score u p).2.2 := by
  unfold scoredSurvivors
  rw [List.mem_filterMap]
  constructor
  · rintro ⟨p, hp, hf⟩
    dsimp only at hf
    by_cases h : 5 < (calculate_compatibility_score u p).1
    · rw [if_pos h] at hf
      exact ⟨p, hp, h, (Option.some.inj hf).symm⟩
    · rw [if_neg h] at hf
      cases hf
  · rintro ⟨p, hp, h5, rfl⟩
    exact ⟨p, hp, by dsimp only; rw [if_pos h5]⟩

theorem find_top_core_eq_some (u : Prefs) (pkgs : List Package) (n : Nat)
    (out : List ScoredPackage) :
    find_top_core u pkgs n = some out ↔
      ((scoredSurvivors u pkgs).all (fun sp => (pyFloat sp.pkg.rating).isSome) = true ∧
        out = (pySortDesc (fun a b => rankKeyLt (rankKey a) (rankKey b))
                (scoredSurvivors u pkgs)).take n) := by
  simp only [find_top_core]
  split_ifs with h
  · simp only [Option.some.injEq]
    constructor
    · intro h'; exact ⟨h, h'.symm⟩
    · intro h'; exact h'.2.symm
  · constructor
    · intro h'; cases h'
    · intro h'; exact absurd h'.1 h

theorem mem_of_mem_find_top_core (u : Prefs) (pkgs : List Package) (n : Nat)
    (out : List ScoredPackage) (sp : ScoredPackage)
    (h : find_top_core u pkgs n = some out) (hsp : sp ∈ out) :
    sp ∈ scoredSurvivors u pkgs := by
  rw [find_top_core_eq_some] at h
  obtain ⟨-, rfl⟩ := h
  have h1 := List.take_subset n _ hsp
  unfold pySortDesc at h1
  exact (List.mem_insertionSort _).mp h1

/-! ## Claim theorems -/

/-- **C1.** For every preference set and package record, the compatibility
percentage returned by a scorer equals `raw_score / max_possible_score *
100` with the max fixed per variant (15 for the baseline scorer, 22.5 for
the enhanced scorer), independent of the input data, and the percentage
lies in [0, 100].  (For the enhanced scorer the statement is about the
triple it returns whenever it returns one; an unparseable rating or review
count makes it raise instead — see C4.) -/
theorem C1_percentage_normalization (u : Prefs) (p : Package) (month : Nat) :
    ((calculate_compatibility_score u p).2.2 = 15 ∧
      (calculate_compatibility_score u p).1
        = (calculate_compatibility_score u p).2.1 / 15 * 100 ∧
      0 ≤ (calculate_compatibility_score u p).1 ∧
      (calculate_compatibility_score u p).1 ≤ 100) ∧
    (∀ pct raw mx, calculate_enhanced_compatibility_score u p month = some (pct, raw, mx) →
      mx = 45 / 2 ∧ pct = raw / (45 / 2) * 100 ∧ 0 ≤ pct ∧ pct ≤ 100) := by
  have hb := baselineRaw_bounds u p
  constructor
  · rw [calculate_compatibility_score_def]
    refine ⟨rfl, rfl, ?_, ?_⟩
    · exact mul_nonneg (div_nonneg hb.1 (by norm_num)) (by norm_num)
    · have h1 : baselineRaw u p / 15 ≤ 1 := (div_le_one (by norm_num)).mpr hb.2
      calc baselineRaw u p / 15 * 100 ≤ 1 * 100 :=
            mul_le_mul_of_nonneg_right h1 (by norm_num)
        _ = 100 := by norm_num
  · intro pct raw mx h
    cases hr : pyFloat p.rating with
    | none =>
      rw [(calculate_enhanced_compatibility_score_none_iff u p month).mpr (Or.inl hr)] at h
      cases h
    | some rv =>
      cases hn : pyInt p.reviews_count with
      | none =>
        rw [(calculate_enhanced_compatibility_score_none_iff u p month).mpr (Or.inr hn)] at h
        cases h
      | some rc =>
        rw [calculate_enhanced_compatibility_score_eq u p month rv rc hr hn] at h
        simp only [Option.some.injEq, Prod.mk.injEq] at h
        obtain ⟨h1, h2, h3⟩ := h
        subst h1
        subst h2
        subst h3
        have ha := ratingPoints_bounds rv
        have hc := reviewPoints_bounds rc
        have hd := pricePoints_bounds u p
        have he := seasonPoints_bounds month p
        have hf := inclusionPoints_bounds p
        set A := baselineRaw u p + ratingPoints rv + reviewPoints rc + pricePoints u p
          + seasonPoints month p + inclusionPoints p with hA
        have hA0 : 0 ≤ A := by
          rw [hA]
          linarith [hb.1, ha.1, hc.1, hd.1, he.1, hf.1]
        have hA1 : A ≤ 45 / 2 := by
          rw [hA]
          linarith [hb.2, ha.2, hc.2, hd.2, he.2, hf.2]
        refine ⟨rfl, rfl, ?_, ?_⟩
        · exact mul_nonneg (div_nonneg hA0 (by norm_num)) (by norm_num)
        · have h1 : A / (45 / 2) ≤ 1 := (div_le_one (by norm_num)).mpr hA1
          calc A / (45 / 2) * 100 ≤ 1 * 100 :=
                mul_le_mul_of_nonneg_right h1 (by norm_num)
            _ = 100 := by norm_num

/-- Witness for C1 at a concrete input where the enhanced scorer returns a
value. -/
theorem C1_percentage_normalization_witness :
    calculate_enhanced_compatibility_score parisPrefs parisCulturalPkg 6
        = some (mkRat 800 9, 20, mkRat 45 2) ∧
    (mkRat 45 2 = 45 / 2 ∧ (mkRat 800 9 : ℚ) = 20 / (45 / 2) * 100 ∧
      0 ≤ (mkRat 800 9 : ℚ) ∧ (mkRat 800 9 : ℚ) ≤ 100) :=
  ⟨by decide,
    (C1_percentage_normalization parisPrefs parisCulturalPkg 6).2 (mkRat 800 9) 20
      (mkRat 45 2) (by decide)⟩

/-- **C2.** For every preference set and package list, no package whose
baseline compatibility percentage is ≤ 5 appears in the output of
`find_top_packages` (stated over the scoring/filter/sort core on an
explicit package list; every output element also carries exactly its
recomputed percentage). -/
theorem C2_threshold_filter (u : Prefs) (pkgs : List Package) (n : Nat)
    (out : List ScoredPackage) (h : find_top_core u pkgs n = some out) :
    ∀ sp ∈ out, ¬((calculate_compatibility_score u sp.pkg).1 ≤ 5) ∧
      sp.compatibility_score = (calculate_compatibility_score u sp.pkg).1 := by
  intro sp hsp
  have hs := mem_of_mem_find_top_core u pkgs n out sp h hsp
  rw [mem_scoredSurvivors] at hs
  obtain ⟨p, hp, h5, rfl⟩ := hs
  exact ⟨not_le.mpr h5, rfl⟩

/-- Witness for C2 at a concrete ranking run. -/
theorem C2_threshold_filter_witness :
    ¬((calculate_compatibility_score parisPrefs
        (ScoredPackage.mk parisCulturalPkgHi 100 15 15).pkg).1 ≤ 5) ∧
      (ScoredPackage.mk parisCulturalPkgHi 100 15 15).compatibility_score
        = (calculate_compatibility_score parisPrefs
            (ScoredPackage.mk parisCulturalPkgHi 100 15 15).pkg).1 :=
  C2_threshold_filter parisPrefs [parisCulturalPkg, parisCulturalPkgHi] 3
    [ScoredPackage.mk parisCulturalPkgHi 100 15 15,
     ScoredPackage.mk parisCulturalPkg 100 15 15]
    (by decide) (ScoredPackage.mk parisCulturalPkgHi 100 15 15) (by decide)

/-- **C9.** The scorers and the ranking engine never mutate their input
preference set or package records: every record underlying an output
annotation is field-for-field one of the input records (annotations live
only on the fresh `ScoredPackage` copies), and an invocation on an explicit
package list leaves the store state untouched.  (The scorers are pure
functions in this embedding because the source reads but never writes its
arguments; this theorem captures the observable half: outputs are built
from unmodified copies.) -/
theorem C9_no_input_mutation (u : Prefs) (pkgs : List Package) (n : Nat)
    (selfPkgs : List Package) (σ : Nat → Nat) (out : List ScoredPackage)
    (h : find_top_core u pkgs n = some out) :
    (∀ sp ∈ out, sp.pkg ∈ pkgs) ∧
    (find_top_packages selfPkgs u (some pkgs) σ n).2 = selfPkgs := by
  constructor
  · intro sp hsp
    have hs := mem_of_mem_find_top_core u pkgs n out sp h hsp
    rw [mem_scoredSurvivors] at hs
    obtain ⟨p, hp, -, rfl⟩ := hs
    exact hp
  · rfl

/-- Witness for C9 at a concrete ranking run. -/
theorem C9_no_input_mutation_witness :
    (ScoredPackage.mk parisCulturalPkgHi 100 15 15).pkg
        ∈ [parisCulturalPkg, parisCulturalPkgHi] ∧
    (find_top_packages [parisCulturalPkg] parisPrefs
        (some [parisCulturalPkg, parisCulturalPkgHi]) (fun _ => 0) 3).2
      = [parisCulturalPkg] :=
  ⟨((C9_no_input_mutation parisPrefs [parisCulturalPkg, parisCulturalPkgHi] 3
      [parisCulturalPkg] (fun _ => 0)
      [ScoredPackage.mk parisCulturalPkgHi 100 15 15,
       ScoredPackage.mk parisCulturalPkg 100 15 15]
      (by decide)).1 (ScoredPackage.mk parisCulturalPkgHi 100 15 15) (by decide)),
   ((C9_no_input_mutation parisPrefs [parisCulturalPkg, parisCulturalPkgHi] 3
      [parisCulturalPkg] (fun _ => 0)
      [ScoredPackage.mk parisCulturalPkgHi 100 15 15,
       ScoredPackage.mk parisCulturalPkg 100 15 15]
      (by decide)).2)⟩

/-- **C5.** If the external generation collaborator is absent/unconfigured
or raises any error while being contacted, the fallback path
(`find_online_packages` / `search_online_packages`) returns an empty list
rather than propagating an exception (a parse failure cannot raise at all:
`parse_openai_response` is total and an unrecognizable reply simply yields
no blocks, which the orchestrator also turns into `some []`). -/
theorem C5_fallback_returns_empty (u : Prefs) (month n : Nat) (e : Unit) :
    search_online_packages none u month = [] ∧
    search_online_packages (some (Except.error e)) u month = [] ∧
    find_online_packages none u month n = some [] ∧
    find_online_packages (some (Except.error e)) u month n = some [] :=
  ⟨rfl, rfl, rfl, rfl⟩

/-- Every rating string produced by the sample generator parses as a float
(it is one of `"3.5"`, …, `"5.0"`). -/
theorem ratingString_parses (σ : Nat → Nat) (k : Nat) :
    (pyFloat (ratingString σ k)).isSome = true := by
  unfold ratingString
  have hm : σ k % 16 < 16 := Nat.mod_lt _ (by norm_num)
  have key : ∀ m : Fin 16,
      (pyFloat (toString ((35 + m.1) / 10) ++ "." ++ toString ((35 + m.1) % 10))).isSome
        = true := by decide
  exact key ⟨σ k % 16, hm⟩

/-- Every generated sample package carries a generator rating string. -/
theorem generate_sample_rating (σ : Nat → Nat) (num : Nat) :
    ∀ p ∈ generate_sample_packages σ num, ∃ k, p.rating = ratingString σ k := by
  intro p hp
  unfold generate_sample_packages at hp
  rw [List.mem_map] at hp
  obtain ⟨i, hi, rfl⟩ := hp
  exact ⟨20 * i + 12, rfl⟩

/-- **C6.** When `find_top_packages` is invoked with no packages argument
and the store's catalog is empty, it synthesizes a fresh non-empty sample
catalog (20 records) before scoring, installs it as the new store state,
never throws, and its result is exactly the ranking of that freshly
generated catalog. -/
theorem C6_empty_catalog_regenerates (u : Prefs) (σ : Nat → Nat) (n : Nat) :
    find_top_packages [] u none σ n
        = (find_top_core u (generate_sample_packages σ 20) n,
           generate_sample_packages σ 20) ∧
    (generate_sample_packages σ 20).length = 20 ∧
    (find_top_core u (generate_sample_packages σ 20) n).isSome = true := by
  refine ⟨rfl, by simp [generate_sample_packages], ?_⟩
  have hall : ((scoredSurvivors u (generate_sample_packages σ 20)).all
      (fun sp => (pyFloat sp.pkg.rating).isSome)) = true := by
    rw [List.all_eq_true]
    intro sp hsp
    rw [mem_scoredSurvivors] at hsp
    obtain ⟨p, hp, -, rfl⟩ := hsp
    obtain ⟨k, hk⟩ := generate_sample_rating σ 20 p hp
    dsimp only
    rw [hk]
    exact ratingString_parses σ k
  simp [find_top_core, hall]

/-- `validate_package_data` never touches the six preference-derived
fields. -/
theorem validate_package_data_preserves (p : Package) (u : Prefs) (month : Nat) :
    (validate_package_data p u month).destination = p.destination ∧
    (validate_package_data p u month).budget = p.budget ∧
    (validate_package_data p u month).duration = p.duration ∧
    (validate_package_data p u month).travel_style = p.travel_style ∧
    (validate_package_data p u month).group_size = p.group_size ∧
    (validate_package_data p u month).accommodation_type = p.accommodation_type := by
  unfold validate_package_data
  dsimp only
  split_ifs <;> simp

/-- **C10.** Every package record produced by parsing the generation
collaborator's reply has its destination, budget, duration, travel_style,
group_size and accommodation_type fields copied verbatim from the user's
Preference Set (with the source's fixed defaults when a key is absent),
regardless of the reply text, and at most 3 records are produced per
reply. -/
theorem C10_parse_copies_preferences (text : String) (u : Prefs) (month : Nat) :
    (parse_openai_response text u month).length ≤ 3 ∧
    ∀ p ∈ parse_openai_response text u month,
      p.destination = u.destination.getD "Unknown Destination" ∧
      p.budget = u.budget.getD "moderate" ∧
      p.duration = u.duration.getD "7" ∧
      p.travel_style = u.travel_style.getD "relaxation" ∧
      p.group_size = u.group_size.getD "2" ∧
      p.accommodation_type = u.accommodation_type.getD "hotel" := by
  constructor
  · unfold parse_openai_response
    dsimp only
    simp only [List.length_map, List.enum_length, List.length_take]
    omega
  · intro p hp
    unfold parse_openai_response at hp
    rw [List.mem_map] at hp
    obtain ⟨ib, hib, rfl⟩ := hp
    have h := validate_package_data_preserves
      { package_id := "ONLINE" ++ pad3 (ib.1 + 1),
        package_name := extract_field ib.2 "package_name",
        destination := u.destination.getD "Unknown Destination",
        budget := u.budget.getD "moderate",
        duration := u.duration.getD "7",
        travel_style := u.travel_style.getD "relaxation",
        group_size := u.group_size.getD "2",
        accommodation_type := u.accommodation_type.getD "hotel",
        activities := extract_field ib.2 "activities",
        price_range := extract_field ib.2 "price_range",
        rating := extract_field ib.2 "rating",
        reviews_count := extract_field ib.2 "reviews_count",
        includes := extract_field ib.2 "includes",
        best_time := extract_field ib.2 "best_time" } u month
    exact ⟨h.1, h.2.1, h.2.2.1, h.2.2.2.1, h.2.2.2.2.1, h.2.2.2.2.2⟩

/-- Witness for C10 at a concrete reply: the parsed record carries the
preference fields verbatim. -/
theorem C10_parse_copies_preferences_witness :
    parsedWitnessPkg.destination = parisPrefs.destination.getD "Unknown Destination" ∧
    parsedWitnessPkg.budget = parisPrefs.budget.getD "moderate" ∧
    parsedWitnessPkg.duration = parisPrefs.duration.getD "7" ∧
    parsedWitnessPkg.travel_style = parisPrefs.travel_style.getD "relaxation" ∧
    parsedWitnessPkg.group_size = parisPrefs.group_size.getD "2" ∧
    parsedWitnessPkg.accommodation_type = parisPrefs.accommodation_type.getD "hotel" :=
  (C10_parse_copies_preferences "Package 1:\nrating: 4.7\n" parisPrefs 6).2
    parsedWitnessPkg (by decide)

/-- **C4 counterexample.** The claim "a malformed numeric field … never
causes an exception to propagate out of the scoring or ranking pipeline"
is false: with rating `"N/A"`, `float(package.get('rating', 0))` in
`calculate_enhanced_compatibility_score` (no surrounding `try`) and
`float(x['rating'])` in `find_top_packages`' sort key both raise, modelled
here by `none` results. -/
theorem C4_counterexample :
    pyFloat unparseableRatingPkg.rating = none ∧
    calculate_enhanced_compatibility_score parisPrefs unparseableRatingPkg 6 = none ∧
    find_top_core parisPrefs [unparseableRatingPkg] 3 = none := by decide

/-- **C4 (amended).** An unparseable duration is recovered locally (the
`try/except ValueError: pass` makes it contribute 0) and the baseline
scorer never raises; but the enhanced scorer raises exactly when the rating
or review-count string is unparseable, and `find_top_packages` raises
exactly when some surviving package's rating string is unparseable. -/
theorem C4_amended_numeric_error_handling (u : Prefs) (p : Package)
    (pkgs : List Package) (month n : Nat) :
    (pyInt (u.duration.getD "0") = none ∨ pyInt p.duration = none →
      durationFactor u p = 0) ∧
    (calculate_enhanced_compatibility_score u p month = none ↔
      (pyFloat p.rating = none ∨ pyInt p.reviews_count = none)) ∧
    (find_top_core u pkgs n = none ↔
      ∃ sp ∈ scoredSurvivors u pkgs, pyFloat sp.pkg.rating = none) := by
  refine ⟨?_, calculate_enhanced_compatibility_score_none_iff u p month, ?_⟩
  · intro h
    unfold durationFactor
    rcases h with h | h
    · simp [h]
    · cases hud : pyInt (u.duration.getD "0") <;> simp [h, hud]
  · simp only [find_top_core]
    split_ifs with h
    · constructor
      · intro h'; cases h'
      · rintro ⟨sp, hsp, hr⟩
        rw [List.all_eq_true] at h
        have h2 := h sp hsp
        rw [hr] at h2
        cases h2
    · constructor
      · intro _
        simp only [List.all_eq_true, not_forall] at h
        obtain ⟨sp, hsp, hr⟩ := h
        refine ⟨sp, hsp, ?_⟩
        rw [← Option.not_isSome_iff_eq_none]
        simpa using hr
      · intro _; rfl

/-- Witness for the amended C4: an unparseable duration contributes 0. -/
theorem C4_amended_numeric_error_handling_witness :
    durationFactor parisPrefs unparseableDurationPkg = 0 :=
  (C4_amended_numeric_error_handling parisPrefs unparseableDurationPkg [] 6 3).1
    (Or.inr (by decide))

/-- **C7 counterexample.** The claim awards 1 point "exactly when the
package budget is `moderate` and the user budget contains none of the
budget/luxury keywords"; the code (a) tests `'moderate' in package_budget`
by substring, so `"moderately priced"` also scores 1, and (b) excludes only
the four words budget/luxury/cheap/expensive, so the luxury keyword
`"high"` still scores 1. -/
theorem C7_counterexample :
    (budgetFactor midBudgetPrefs moderatelyPricedPkg = 1 ∧
      pyLower moderatelyPricedPkg.budget ≠ "moderate" ∧
      moderatelyPricedPkg.budget ≠ "moderate") ∧
    (budgetFactor highBudgetPrefs moderateBudgetPkg = 1 ∧
      "high" ∈ ["luxury", "high", "premium", "expensive"] ∧
      pyIn "high" (pyLower (highBudgetPrefs.budget.getD "")) = true) := by decide

/-- **C7 (amended).** The baseline budget factor contributes: 3 on exact
case-insensitive equality; else 2 when both sides fall in the same coarse
budget-like or luxury-like bucket (by case-insensitive word containment);
else 1 exactly when the package budget *contains* "moderate" and the user
budget contains none of the four words "budget", "luxury", "cheap",
"expensive"; and 0 otherwise — i.e. it equals the spec-side rule
`budgetFactorSpec`. -/
theorem C7_amended_budget_factor (u : Prefs) (p : Package) :
    budgetFactor u p
      = budgetFactorSpec (pyLower (u.budget.getD "")) (pyLower p.budget) := by
  unfold budgetFactor budgetFactorSpec
  dsimp only
  set ub := pyLower (u.budget.getD "") with hub
  set pb := pyLower p.budget with hpb
  have hBspec : (((pkgBudgetLike pb && userBudgetLike ub)
        || (pkgLuxuryLike pb && userLuxuryLike ub)) = true) ↔
      (((pyIn "budget" pb ∨ pyIn "cheap" pb ∨ pyIn "low" pb) ∧
          (pyIn "budget" ub ∨ pyIn "cheap" ub ∨ pyIn "low" ub ∨ pyIn "affordable" ub)) ∨
        ((pyIn "luxury" pb ∨ pyIn "premium" pb) ∧
          (pyIn "luxury" ub ∨ pyIn "high" ub ∨ pyIn "premium" ub ∨
            pyIn "expensive" ub))) := by
    simp [pkgBudgetLike, userBudgetLike, pkgLuxuryLike, userLuxuryLike, or_assoc]
  have hMspec : ((pyIn "moderate" pb
        && !(moderateExclusionWords.any (fun w => pyIn w ub))) = true) ↔
      (pyIn "moderate" pb ∧
        ¬(pyIn "budget" ub ∨ pyIn "luxury" ub ∨ pyIn "cheap" ub ∨
          pyIn "expensive" ub)) := by
    simp [moderateExclusionWords, or_assoc]
  by_cases h1 : ub = pb
  · rw [if_pos h1, if_pos h1]
  · rw [if_neg h1, if_neg h1]
    by_cases hB : (pyIn "budget" pb ∨ pyIn "cheap" pb ∨ pyIn "low" pb) ∧
        (pyIn "budget" ub ∨ pyIn "cheap" ub ∨ pyIn "low" ub ∨ pyIn "affordable" ub)
    · rw [if_pos hB, if_pos (hBspec.mpr (Or.inl hB))]
    · rw [if_neg hB]
      by_cases hL : (pyIn "luxury" pb ∨ pyIn "premium" pb) ∧
          (pyIn "luxury" ub ∨ pyIn "high" ub ∨ pyIn "premium" ub ∨ pyIn "expensive" ub)
      · rw [if_pos hL, if_pos (hBspec.mpr (Or.inr hL))]
      · rw [if_neg hL, if_neg (fun hc => (hBspec.mp hc).elim hB hL)]
        by_cases hM : pyIn "moderate" pb ∧
            ¬(pyIn "budget" ub ∨ pyIn "luxury" ub ∨ pyIn "cheap" ub ∨ pyIn "expensive" ub)
        · rw [if_pos hM, if_pos (hMspec.mpr hM)]
        · rw [if_neg hM, if_neg (fun hc => hM (hMspec.mp hc))]

/-- `validate_package_data` computes the rating and review-count fields by
`validated_rating` / `validated_reviews` and nothing later overwrites
them. -/
theorem validate_package_data_numeric (p : Package) (u : Prefs) (month : Nat) :
    (validate_package_data p u month).rating = validated_rating p.rating ∧
    (validate_package_data p u month).reviews_count
      = validated_reviews p.reviews_count := by
  unfold validate_package_data
  dsimp only
  split_ifs <;> simp

/-- Case analysis of the rating branch: the result parses to a finite value
in [3.5, 5.0] — except that a `nan` rating slips through the range check
(both comparisons are false on `nan`) and is kept verbatim. -/
theorem validated_rating_spec (s : String) :
    (∃ q : ℚ, pyFloat (validated_rating s) = some (PyF.fin q) ∧
      7 / 2 ≤ q ∧ q ≤ 5) ∨
    (pyFloat s = some PyF.nan ∧ validated_rating s = s) := by
  have h72 : (7 : ℚ) / 2 = mkRat 7 2 := by rw [mkRat_eq_div]; norm_num
  unfold validated_rating
  cases hf : pyFloat s with
  | none =>
    dsimp only
    refine Or.inl ⟨mkRat 21 5, by decide, ?_, ?_⟩
    · rw [h72, mkRat_eq_div, mkRat_eq_div]; norm_num
    · rw [mkRat_eq_div]; norm_num
  | some v =>
    cases v with
    | nan =>
      dsimp only
      refine Or.inr ⟨rfl, ?_⟩
      rw [if_neg (by simp [PyF.ltQ, PyF.gtQ])]
    | inf =>
      dsimp only
      refine Or.inl ⟨mkRat 21 5, ?_, ?_, ?_⟩
      · rw [if_pos (by simp [PyF.gtQ])]; decide
      · rw [h72, mkRat_eq_div, mkRat_eq_div]; norm_num
      · rw [mkRat_eq_div]; norm_num
    | ninf =>
      dsimp only
      refine Or.inl ⟨mkRat 21 5, ?_, ?_, ?_⟩
      · rw [if_pos (by simp [PyF.ltQ])]; decide
      · rw [h72, mkRat_eq_div, mkRat_eq_div]; norm_num
      · rw [mkRat_eq_div]; norm_num
    | fin q =>
      dsimp only
      by_cases h : q < mkRat 7 2 ∨ 5 < q
      · refine Or.inl ⟨mkRat 21 5, ?_, ?_, ?_⟩
        · rw [if_pos (by simp only [PyF.ltQ, PyF.gtQ, decide_eq_true_eq]; exact h)]
          decide
        · rw [h72, mkRat_eq_div, mkRat_eq_div]; norm_num
        · rw [mkRat_eq_div]; norm_num
      · push_neg at h
        refine Or.inl ⟨q, ?_, ?_, h.2⟩
        · rw [if_neg (by
            simp only [PyF.ltQ, PyF.gtQ, decide_eq_true_eq, not_or]
            exact ⟨not_lt.mpr h.1, not_lt.mpr h.2⟩)]
          exact hf
        · rw [h72]; exact h.1

/-- Case analysis of the review-count branch: the result always parses to
an integer in [100, 1000]. -/
theorem validated_reviews_spec (s : String) :
    ∃ m : ℤ, pyInt (validated_reviews s) = some m ∧ 100 ≤ m ∧ m ≤ 1000 := by
  unfold validated_reviews
  cases hn : pyInt s with
  | none =>
    dsimp only
    exact ⟨300, by decide, by decide, by decide⟩
  | some n =>
    dsimp only
    by_cases h : n < 100 ∨ 1000 < n
    · rw [if_pos h]
      exact ⟨300, by decide, by decide, by decide⟩
    · push_neg at h
      rw [if_neg (by
        simp only [not_or, not_lt]
        exact h)]
      exact ⟨n, hn, h.1, h.2⟩

/-- **C8 counterexample.** A `"nan"` rating survives `validate_package_data`
unreplaced: `float("nan")` succeeds and both range comparisons
(`rating < 3.5`, `rating > 5.0`) are false on NaN, so the record's rating
does not parse to a float in [3.5, 5.0] and the out-of-range value is left
in place. -/
theorem C8_counterexample :
    (validate_package_data nanRatingPkg parisPrefs 6).rating = nanRatingPkg.rating ∧
    nanRatingPkg.rating = "nan" ∧
    pyFloat (validate_package_data nanRatingPkg parisPrefs 6).rating = some PyF.nan ∧
    PyF.nan.geQ (mkRat 7 2) = false ∧
    PyF.nan.ltQ (mkRat 7 2) = false ∧ PyF.nan.gtQ 5 = false := by decide

/-- **C8 (amended).** After `validate_package_data`, the record's rating
parses to a float in [3.5, 5.0] — or the original rating string was
`"nan"`, which passes the range check (NaN comparisons are all false) and
is kept verbatim; the review count always parses to an integer in
[100, 1000]; an unparseable rating / review count is replaced by the
default `"4.2"` / `"300"`, never left in place, and the record is never
rejected (validation is total). -/
theorem C8_amended_validation_ranges (p : Package) (u : Prefs) (month : Nat) :
    ((∃ q : ℚ, pyFloat (validate_package_data p u month).rating = some (PyF.fin q) ∧
        7 / 2 ≤ q ∧ q ≤ 5) ∨
      (pyFloat p.rating = some PyF.nan ∧
        (validate_package_data p u month).rating = p.rating)) ∧
    (∃ m : ℤ, pyInt (validate_package_data p u month).reviews_count = some m ∧
      100 ≤ m ∧ m ≤ 1000) ∧
    (pyFloat p.rating = none → (validate_package_data p u month).rating = "4.2") ∧
    (pyInt p.reviews_count = none →
      (validate_package_data p u month).reviews_count = "300") := by
  obtain ⟨hr, hn⟩ := validate_package_data_numeric p u month
  rw [hr, hn]
  refine ⟨validated_rating_spec p.rating, validated_reviews_spec p.reviews_count, ?_, ?_⟩
  · intro h
    unfold validated_rating
    rw [h]
  · intro h
    unfold validated_reviews
    rw [h]

/-- Witness for the amended C8: an unparseable rating is replaced by the
default. -/
theorem C8_amended_validation_ranges_witness :
    (validate_package_data unparseableRatingPkg parisPrefs 6).rating = "4.2" :=
  (C8_amended_validation_ranges unparseableRatingPkg parisPrefs 6).2.2.1 (by decide)

/-- The ranking key of a survivor whose rating parses to a finite float. -/
theorem rankKey_of_fin (sp : ScoredPackage) (q : ℚ)
    (h : pyFloat sp.pkg.rating = some (PyF.fin q)) :
    rankKey sp = (sp.compatibility_score, PyF.fin q) := by
  unfold rankKey
  rw [h]
  rfl

/-- Finite ratings: totality of the descending key order. -/
theorem rankBefore_total (a b : ScoredPackage)
    (ha : ∃ q, pyFloat a.pkg.rating = some (PyF.fin q))
    (hb : ∃ q, pyFloat b.pkg.rating = some (PyF.fin q))
    (hne : ¬(rankKeyLt (rankKey a) (rankKey b) = false)) :
    rankKeyLt (rankKey b) (rankKey a) = false := by
  obtain ⟨qa, ha⟩ := ha
  obtain ⟨qb, hb⟩ := hb
  rw [rankKey_of_fin a qa ha, rankKey_of_fin b qb hb] at hne ⊢
  rw [rankKeyLt_fin_eq] at hne ⊢
  simp only [decide_eq_false_iff_not, not_not] at hne ⊢
  rcases hne with h | ⟨he, hq⟩ <;> rintro (h' | ⟨he', hq'⟩) <;> linarith

/-- Finite ratings: transitivity of the descending key order. -/
theorem rankBefore_trans (a b c : ScoredPackage)
    (ha : ∃ q, pyFloat a.pkg.rating = some (PyF.fin q))
    (hb : ∃ q, pyFloat b.pkg.rating = some (PyF.fin q))
    (hc : ∃ q, pyFloat c.pkg.rating = some (PyF.fin q))
    (hab : rankKeyLt (rankKey a) (rankKey b) = false)
    (hbc : rankKeyLt (rankKey b) (rankKey c) = false) :
    rankKeyLt (rankKey a) (rankKey c) = false := by
  obtain ⟨qa, ha⟩ := ha
  obtain ⟨qb, hb⟩ := hb
  obtain ⟨qc, hc⟩ := hc
  rw [rankKey_of_fin a qa ha, rankKey_of_fin b qb hb] at hab
  rw [rankKey_of_fin b qb hb, rankKey_of_fin c qc hc] at hbc
  rw [rankKey_of_fin a qa ha, rankKey_of_fin c qc hc]
  rw [rankKeyLt_fin_eq] at hab hbc ⊢
  simp only [decide_eq_false_iff_not] at hab hbc ⊢
  push_neg at hab hbc ⊢
  obtain ⟨hba, habq⟩ := hab
  obtain ⟨hcb, hbcq⟩ := hbc
  constructor
  · linarith
  · intro he
    have hac : a.compatibility_score ≤ b.compatibility_score := by
      rw [he]; exact hcb
    have h1 : a.compatibility_score = b.compatibility_score := le_antisymm hac hba
    have hbsc : b.compatibility_score ≤ c.compatibility_score := by
      rw [← he]; exact hba
    have h2 : b.compatibility_score = c.compatibility_score := le_antisymm hbsc hcb
    exact le_trans (hbcq h2) (habq h1)

/-- **C3.** `find_top_packages` sorts the surviving packages descending by
(baseline percentage, rating) with a stable sort — packages equal on both
keys retain their input order — and returns the first `n`; in particular,
of two packages identical on every field except rating (so their
percentages tie), the higher-rating package ranks first.  (Sortedness is
stated under the hypothesis that the surviving ratings parse to finite
floats: with a NaN rating the key comparison is not an order at all, and
Python's sort makes no ordering guarantee either.) -/
theorem C3_stable_descending_ranking (u : Prefs) (pkgs : List Package) (n : Nat)
    (out : List ScoredPackage) (h : find_top_core u pkgs n = some out)
    (hfin : ∀ sp ∈ scoredSurvivors u pkgs,
      ∃ q, pyFloat sp.pkg.rating = some (PyF.fin q)) :
    out = (pySortDesc (fun a b => rankKeyLt (rankKey a) (rankKey b))
            (scoredSurvivors u pkgs)).take n ∧
    out.Pairwise (fun a b => rankKeyLt (rankKey a) (rankKey b) = false) ∧
    (∀ k : ℚ × PyF,
      (pySortDesc (fun a b => rankKeyLt (rankKey a) (rankKey b))
          (scoredSurvivors u pkgs)).filter (fun sp => rankKey sp == k)
        = (scoredSurvivors u pkgs).filter (fun sp => rankKey sp == k)) ∧
    (find_top_core parisPrefs [parisCulturalPkg, parisCulturalPkgHi] 3).map
        (fun l => l.map (fun sp => sp.pkg))
      = some [parisCulturalPkgHi, parisCulturalPkg] := by
  have hout : out = (pySortDesc (fun a b => rankKeyLt (rankKey a) (rankKey b))
      (scoredSurvivors u pkgs)).take n :=
    ((find_top_core_eq_some u pkgs n out).mp h).2
  have hpair : (pySortDesc (fun a b => rankKeyLt (rankKey a) (rankKey b))
      (scoredSurvivors u pkgs)).Pairwise
        (fun a b => rankKeyLt (rankKey a) (rankKey b) = false) := by
    unfold pySortDesc
    exact pairwise_insertionSort_of _
      (fun sp => ∃ q, pyFloat sp.pkg.rating = some (PyF.fin q))
      rankBefore_total rankBefore_trans _ hfin
  refine ⟨hout, ?_, ?_, by decide⟩
  · rw [hout]
    exact hpair.sublist (List.take_sublist n _)
  · intro k
    unfold pySortDesc
    refine filter_insertionSort_of _ _ ?_ _
    intro a b hfa hfb
    rw [beq_iff_eq] at hfa hfb
    show rankKeyLt (rankKey a) (rankKey b) = false
    rw [hfa, hfb]
    exact rankKeyLt_self k

/-- Witness for C3 at the spec's worked example: the higher-rating package
ranks first when percentages tie. -/
theorem C3_stable_descending_ranking_witness :
    (find_top_core parisPrefs [parisCulturalPkg, parisCulturalPkgHi] 3).map
        (fun l => l.map (fun sp => sp.pkg))
      = some [parisCulturalPkgHi, parisCulturalPkg] :=
  (C3_stable_descending_ranking parisPrefs [parisCulturalPkg, parisCulturalPkgHi] 3
    [ScoredPackage.mk parisCulturalPkgHi 100 15 15,
     ScoredPackage.mk parisCulturalPkg 100 15 15]
    (by decide)
    (by
      intro sp hsp
      have he : scoredSurvivors parisPrefs [parisCulturalPkg, parisCulturalPkgHi]
          = [ScoredPackage.mk parisCulturalPkg 100 15 15,
             ScoredPackage.mk parisCulturalPkgHi 100 15 15] := by decide
      rw [he] at hsp
      simp only [List.mem_cons, List.not_mem_nil, or_false] at hsp
      rcases hsp with rfl | rfl
      · exact ⟨4, by decide⟩
      · exact ⟨mkRat 24 5, by decide⟩)).2.2.2
